import Mathlib

/-!
Shallow embedding of the couple-pairing backend
(controllers/authController.js) over an explicit relational state.

The database is a pair of tables (lists of rows).  Each HTTP handler that
the claims touch is translated into a pure function from the request and
the database to a response and the resulting database.  Handlers that run
inside a BEGIN/COMMIT transaction return the original database on every
error path (the ROLLBACK) and the mutated database on COMMIT.  `pairCouple`
additionally returns the list of SQL statements it executed, in order, so
that statements executed before an error can be reasoned about.
-/

namespace PairingApp

/-- ASCII uppercase, as SQL UPPER / JavaScript toUpperCase on the invite
codes this app generates (written over the character list so that concrete
instances reduce). -/
def upperStr (s : String) : String := ⟨s.data.map Char.toUpper⟩

/-- Strip leading and trailing whitespace, as SQL TRIM / JavaScript trim
(written over the character list so that concrete instances reduce). -/
def trimStr (s : String) : String :=
  ⟨((s.data.dropWhile Char.isWhitespace).reverse.dropWhile
      Char.isWhitespace).reverse⟩

/-- A row of the `users` table. -/
structure User where
  id : Nat
  email : String := ""
  password_hash : Option String := none
  name : Option String := none
  nickname : Option String := none
  avatar_id : Option String := none
  gender : Option String := none
  couple_id : Option Nat := none
  onboarded : Bool := false
deriving DecidableEq, Repr

/-- A row of the `couples` table. -/
structure Couple where
  id : Nat
  invite_code : String
  creator_id : Nat
  partner_id : Option Nat := none
  rel_status : Option String := none
  status : String := "waiting"
  shared_image_url : Option String := none
deriving DecidableEq, Repr

/-- The relational store: the two tables the pairing state machine touches. -/
structure DB where
  users : List User
  couples : List Couple
deriving DecidableEq, Repr

/-- Result of a handler: `ok` with a payload (`res.json`), or `err` with an
HTTP status and the error message (`res.status(s).json({error})`). -/
inductive ApiResult (α : Type) where
  | ok (payload : α)
  | err (status : Nat) (msg : String)
deriving DecidableEq, Repr

/-- `SELECT ... FROM users WHERE id = $1` followed by `rows[0]`. -/
def findUser (db : DB) (uid : Nat) : Option User :=
  db.users.find? (fun v => v.id == uid)

/-- Primary keys have no duplicates in either table. -/
def DB.wf (db : DB) : Prop :=
  (db.users.map (fun v => v.id)).Nodup ∧ (db.couples.map (fun c => c.id)).Nodup

instance (db : DB) : Decidable db.wf := by
  unfold DB.wf; infer_instance

/-- Request body of POST /onboard-creator. -/
structure OnboardReq where
  nickname : Option String := none
  avatar_id : Option String := none
  gender : Option String := none
  rel_status : Option String := none
deriving DecidableEq, Repr

/-- The serial primary key of the `couples` table: one more than the largest
id in use, so freshly inserted rows never collide with existing ones. -/
def freshCoupleId (db : DB) : Nat :=
  (db.couples.map (fun c => c.id)).foldr max 0 + 1

/-- Modelled from the spec: the couples table enforces uniqueness of the
(case-normalised) invite code among rows with status `waiting`; the schema
file itself is not part of the repository snapshot, only the handler that
maps its violation (Postgres error 23505) to a 400 response
(`handleAuthError`).  `inviteCodeConflict db code` decides whether inserting
a waiting couple with code `code` would violate that constraint. -/
def inviteCodeConflict (db : DB) (code : String) : Bool :=
  db.couples.any (fun c =>
    c.status == "waiting" && trimStr (upperStr c.invite_code) == trimStr (upperStr code))

/-- Step 1 of the onboarding transaction: `UPDATE users SET nickname = $1,
avatar_id = $2, gender = $3, onboarded = true WHERE id = $4`. -/
def onboardProfileUpdate (db : DB) (userId : Nat) (req : OnboardReq) : DB :=
  { db with
    users := db.users.map (fun v =>
      if v.id == userId then
        { v with nickname := req.nickname, avatar_id := req.avatar_id,
                 gender := req.gender, onboarded := true }
      else v) }

/-- Step 2 of the onboarding transaction: `INSERT INTO couples ...`. -/
def insertCouple (db : DB) (c : Couple) : DB :=
  { db with couples := db.couples ++ [c] }

/-- Step 3 of the onboarding transaction: `UPDATE users SET couple_id = $1
WHERE id = $2`. -/
def linkCreator (db : DB) (userId : Nat) (cid : Nat) : DB :=
  { db with
    users := db.users.map (fun v =>
      if v.id == userId then { v with couple_id := some cid } else v) }

/-- The committed state of a successful onboarding transaction: profile
update, couple insert (whose serial id is `freshCoupleId`), creator link. -/
def onboardCommit (db : DB) (userId : Nat) (req : OnboardReq)
    (inviteCode : String) : DB :=
  let db1 := onboardProfileUpdate db userId req
  let cid := freshCoupleId db1
  linkCreator
    (insertCouple db1
      { id := cid, invite_code := inviteCode, creator_id := userId,
        rel_status := req.rel_status, status := "waiting" })
    userId cid

/-- POST /onboard-creator (`onboardCreator`): update the creator's profile,
insert a fresh `waiting` couple carrying the generated invite code, and link
the creator to it — all in one transaction.  The randomly generated invite
code is passed in as a parameter.  A unique-constraint violation on the
insert aborts the transaction (`ROLLBACK`) and is mapped by
`handleAuthError` to status 400. -/
def onboardCreator (db : DB) (userId : Nat) (req : OnboardReq)
    (inviteCode : String) : ApiResult (String × Nat) × DB :=
  if userId == 0 then
    (.err 401 "Your session has expired. Please log in again.", db)
  else if inviteCodeConflict (onboardProfileUpdate db userId req) inviteCode then
    (.err 400 "This email is already registered to a world.", db)
  else
    (.ok (inviteCode, freshCoupleId (onboardProfileUpdate db userId req)),
     onboardCommit db userId req inviteCode)

/-- Request body of POST /pair.  All three fields come from `req.body` and
may be absent (JavaScript `undefined`), hence `Option`. -/
structure PairReq where
  inviteCode : Option String := none
  nickname : Option String := none
  avatar_id : Option String := none
deriving DecidableEq, Repr

/-- `SELECT id, creator_id FROM couples WHERE TRIM(UPPER(invite_code)) = $1
AND status = 'waiting'` with `$1 = inviteCode.trim().toUpperCase()`,
followed by `rows[0]`. -/
def lookupWaiting (db : DB) (code : String) : Option Couple :=
  (db.couples.filter (fun c =>
    trimStr (upperStr c.invite_code) == upperStr (trimStr code)
      && c.status == "waiting")).head?

/-- The ghost-cleanup condition of step 3 of the pair transaction,
JavaScript `oldCoupleId && oldCoupleId !== newCoupleId` (a number is falsy
exactly when it is 0), where `oldCoupleId` is the joiner's current
`couple_id` and the target couple supplies `newCoupleId`. -/
def pairCleanupFlag (db : DB) (userId : Nat) (target : Couple) : Bool :=
  match (findUser db userId).bind (fun v => v.couple_id) with
  | some old => old != 0 && old != target.id
  | none => false

/-- `DELETE FROM couples WHERE id = $1 AND creator_id = $2 AND status =
'waiting'` with `$1 = oldCoupleId`, `$2 = userId`. -/
def ghostDelete (db : DB) (userId : Nat) (old : Nat) : DB :=
  { db with
    couples := db.couples.filter (fun c =>
      !(c.id == old && c.creator_id == userId && c.status == "waiting")) }

/-- Step 3 of the pair transaction: the ghost delete, executed only under
`pairCleanupFlag`. -/
def pairGhostStep (db : DB) (userId : Nat) (target : Couple) : DB :=
  if pairCleanupFlag db userId target then
    ghostDelete db userId (((findUser db userId).bind (fun v => v.couple_id)).getD 0)
  else db

/-- Step 4 of the pair transaction: `UPDATE users SET couple_id = $1,
nickname = $2, avatar_id = $3 WHERE id = $4` — the joiner's nickname and
avatar are overwritten with whatever the request body holds. -/
def linkJoiner (db : DB) (userId : Nat) (req : PairReq) (newCoupleId : Nat) : DB :=
  { db with
    users := db.users.map (fun v =>
      if v.id == userId then
        { v with couple_id := some newCoupleId,
                 nickname := req.nickname, avatar_id := req.avatar_id }
      else v) }

/-- Step 5 of the pair transaction: `UPDATE couples SET partner_id = $1,
status = 'full' WHERE id = $2`. -/
def finalizeCouple (db : DB) (userId : Nat) (newCoupleId : Nat) : DB :=
  { db with
    couples := db.couples.map (fun c =>
      if c.id == newCoupleId then
        { c with partner_id := some userId, status := "full" }
      else c) }

/-- POST /pair (`pairCouple`).  Returns the response, the database after the
call, and the ordered list of SQL statements executed.  When
`req.inviteCode` is absent, `inviteCode.trim()` raises a TypeError after the
users lookup; the catch block rolls the transaction back and answers 500.
When the code lookup finds no waiting couple the handler rolls back and
answers 400.  Otherwise: ghost cleanup of the joiner's own abandoned waiting
couple, the unconditional profile overwrite of the joiner's row, and the
transition of the target couple to `full`. -/
def pairCouple (db : DB) (userId : Nat) (req : PairReq) :
    ApiResult (Option Bool) × DB × List String :=
  let alreadyOnboarded : Option Bool := (findUser db userId).map (fun v => v.onboarded)
  match req.inviteCode with
  | none =>
      (.err 500 "Failed to join partner.", db,
       ["BEGIN", "SELECT users", "ROLLBACK"])
  | some rawCode =>
    match lookupWaiting db rawCode with
    | none =>
        (.err 400 "Invalid or expired invite code.", db,
         ["BEGIN", "SELECT users", "SELECT couples", "ROLLBACK"])
    | some target =>
      (.ok alreadyOnboarded,
       finalizeCouple (linkJoiner (pairGhostStep db userId target) userId req target.id)
         userId target.id,
       ["BEGIN", "SELECT users", "SELECT couples"]
         ++ (if pairCleanupFlag db userId target then ["DELETE couples"] else [])
         ++ ["UPDATE users", "UPDATE couples", "COMMIT"])

/-- The committed state of an unlink transaction: `UPDATE users SET
couple_id = NULL WHERE couple_id = $1` followed by `DELETE FROM couples
WHERE id = $1`. -/
def unlinkCommit (db : DB) (coupleId : Nat) : DB :=
  let db1 : DB :=
    { db with
      users := db.users.map (fun v =>
        if v.couple_id == some coupleId then { v with couple_id := none }
        else v) }
  { db1 with couples := db1.couples.filter (fun c => !(c.id == coupleId)) }

/-- POST /unlink (`unlinkCouple`): clear `couple_id` on every user row
referencing the caller's couple, then delete the couple row; error 400 with
no change when the caller has no couple (JavaScript `!coupleId`, which is
also true of the number 0). -/
def unlinkCouple (db : DB) (userId : Nat) : ApiResult Unit × DB :=
  match (findUser db userId).bind (fun v => v.couple_id) with
  | none => (.err 400 "Not in a relationship.", db)
  | some coupleId =>
    if coupleId == 0 then (.err 400 "Not in a relationship.", db)
    else (.ok (), unlinkCommit db coupleId)

/-- Payload of a successful GET /invite-preview/:code. -/
structure PreviewInfo where
  creatorNickname : Option String
  creatorAvatar : Option String
  relationshipType : Option String
deriving DecidableEq, Repr

/-- The rows of `SELECT u.nickname, u.avatar_id, c.rel_status, c.status FROM
couples c INNER JOIN users u ON c.creator_id = u.id WHERE
TRIM(UPPER(c.invite_code)) = $1` with `$1 = code.trim().toUpperCase()`. -/
def previewRows (db : DB) (code : String) : List (User × Couple) :=
  db.couples.filterMap (fun c =>
    if trimStr (upperStr c.invite_code) == upperStr (trimStr code) then
      (findUser db c.creator_id).map (fun u => (u, c))
    else none)

/-- GET /invite-preview/:code (`getInvitePreview`): read-only lookup that
answers 404 when the join yields no row and 400 ("already used") when the
first row's couple status is not `waiting`. -/
def getInvitePreview (db : DB) (code : String) : ApiResult PreviewInfo :=
  match (previewRows db code).head? with
  | none =>
      .err 404
        "Invite not found. Check if the creator still exists or if the code is correct."
  | some (u, c) =>
    if c.status != "waiting" then
      .err 400 "This invite has already been used by someone else."
    else
      .ok { creatorNickname := u.nickname, creatorAvatar := u.avatar_id,
            relationshipType := c.rel_status }

/-- POST /login (`login`).  Password hashing and token minting are external
collaborators, passed in as functions.  On success the handler deletes the
`password_hash` field from the user object before building the response. -/
def login (compare : String → Option String → Bool) (tokenFor : Nat → String)
    (db : DB) (email : String) (password : String) :
    ApiResult (User × String) × DB :=
  match db.users.find? (fun v => v.email == email) with
  | none => (.err 401 "Invalid email or password.", db)
  | some user =>
    if !(compare password user.password_hash) then
      (.err 401 "Invalid email or password.", db)
    else
      (.ok ({ user with password_hash := none }, tokenFor user.id), db)

/-- One step of the pairing state machine: the database transition effected
by a single call to one of the three couple-mutating handlers. -/
inductive Step : DB → DB → Prop where
  | onboard (db : DB) (u : Nat) (req : OnboardReq) (code : String) :
      Step db (onboardCreator db u req code).2
  | pair (db : DB) (u : Nat) (req : PairReq) :
      Step db (pairCouple db u req).2.1
  | unlink (db : DB) (u : Nat) :
      Step db (unlinkCouple db u).2

/-- States reachable by any sequence of CreateInvite, Pair and Unlink calls
from a state with registered users and no couples. -/
inductive Reachable : DB → Prop where
  | init (users : List User) : Reachable ⟨users, []⟩
  | step {db db' : DB} : Reachable db → Step db db' → Reachable db'

/-- Two couple rows do not both sit `waiting` on the same case-normalised
invite code. -/
def codeClash (c1 c2 : Couple) : Prop :=
  c1.status = "waiting" → c2.status = "waiting" →
    trimStr (upperStr c1.invite_code) ≠ trimStr (upperStr c2.invite_code)

/-- No two `waiting` couples share the same case-normalised invite code. -/
def waitingCodesUnique (db : DB) : Prop :=
  db.couples.Pairwise codeClash

/-! Concrete states used to evaluate the handlers on explicit inputs. -/

/-- A creator (user 1) linked to the waiting couple they created. -/
def dbSelf : DB :=
  ⟨[{ id := 1, couple_id := some 1, onboarded := true }],
   [{ id := 1, invite_code := "ABC123", creator_id := 1 }]⟩

/-- A creator with a gender on file awaiting a partner, and a second,
already-onboarded user with a stored nickname and avatar but no gender. -/
def dbGender : DB :=
  ⟨[{ id := 1, couple_id := some 1, gender := some "male" },
    { id := 2, nickname := some "oldnick", avatar_id := some "oldavatar",
      onboarded := true }],
   [{ id := 1, invite_code := "CODE11", creator_id := 1 }]⟩

/-- The state after user 1 completes creator onboarding twice in a row:
two waiting couples, both created by user 1, whose `couple_id` points at
the second one only. -/
def dbDouble : DB :=
  (onboardCreator
    (onboardCreator ⟨[{ id := 1 }, { id := 2 }], []⟩ 1 {} "AAAAAA").2
    1 {} "BBBBBB").2

/-- A `full` couple together with its creator row. -/
def dbFull : DB :=
  ⟨[{ id := 1, nickname := some "Amy", couple_id := some 1 }],
   [{ id := 1, invite_code := "FULLCD", creator_id := 1, partner_id := some 2,
      status := "full" }]⟩

/-- A paired couple: both user rows reference couple 1, which is `full`. -/
def dbPaired : DB :=
  ⟨[{ id := 1, couple_id := some 1, nickname := some "a", avatar_id := some "av1" },
    { id := 2, couple_id := some 1, nickname := some "b", avatar_id := some "av2" }],
   [{ id := 1, invite_code := "XYZQRS", creator_id := 1, partner_id := some 2,
      status := "full" }]⟩

/-- User 2 created waiting couple 1 and is linked to it; user 3 created
waiting couple 2. -/
def dbGhost : DB :=
  ⟨[{ id := 2, couple_id := some 1, onboarded := true },
    { id := 3, couple_id := some 2 }],
   [{ id := 1, invite_code := "AAAAAA", creator_id := 2 },
    { id := 2, invite_code := "BBBBBB", creator_id := 3 }]⟩

/-- Password comparison model for the login instance: the stored hash of a
password is taken to be the password itself. -/
def cmpModel (password : String) (hash : Option String) : Bool :=
  hash == some password

/-- Token minting model for the login instance. -/
def tokModel (_userId : Nat) : String := "token"

/-- One registered user with a stored credential hash. -/
def dbLogin : DB :=
  ⟨[{ id := 1, email := "amy@example.com", password_hash := some "pw1234" }], []⟩

/-! Structural lemmas about the single-statement steps. -/

lemma pairGhostStep_users (db : DB) (u : Nat) (t : Couple) :
    (pairGhostStep db u t).users = db.users := by
  unfold pairGhostStep; split <;> rfl

lemma findUser_pairGhostStep (db : DB) (u : Nat) (t : Couple) (u' : Nat) :
    findUser (pairGhostStep db u t) u' = findUser db u' := by
  unfold findUser; rw [pairGhostStep_users]

lemma head?_mem {α : Type} {l : List α} {a : α} (h : l.head? = some a) :
    a ∈ l := by
  cases l with
  | nil => cases h
  | cons b t =>
    have hb : b = a := by injection h
    rw [← hb]
    exact List.mem_cons_self _ _

lemma lookupWaiting_mem {db : DB} {code : String} {target : Couple}
    (h : lookupWaiting db code = some target) :
    target ∈ db.couples ∧ target.status = "waiting" := by
  unfold lookupWaiting at h
  have hm := head?_mem h
  rw [List.mem_filter] at hm
  refine ⟨hm.1, ?_⟩
  have := hm.2
  simp only [Bool.and_eq_true, beq_iff_eq] at this
  exact this.2

/-! Path lemmas describing each exit of the pair transaction. -/

lemma pairCouple_noCode (db : DB) (u : Nat) (req : PairReq)
    (h : req.inviteCode = none) :
    pairCouple db u req =
      (.err 500 "Failed to join partner.", db,
       ["BEGIN", "SELECT users", "ROLLBACK"]) := by
  unfold pairCouple; rw [h]

lemma pairCouple_badCode (db : DB) (u : Nat) (req : PairReq) (rawCode : String)
    (hic : req.inviteCode = some rawCode)
    (hl : lookupWaiting db rawCode = none) :
    pairCouple db u req =
      (.err 400 "Invalid or expired invite code.", db,
       ["BEGIN", "SELECT users", "SELECT couples", "ROLLBACK"]) := by
  simp only [pairCouple, hic, hl]

lemma pairCouple_success (db : DB) (u : Nat) (req : PairReq) (rawCode : String)
    (target : Couple)
    (hic : req.inviteCode = some rawCode)
    (hl : lookupWaiting db rawCode = some target) :
    pairCouple db u req =
      (.ok ((findUser db u).map (fun v => v.onboarded)),
       finalizeCouple (linkJoiner (pairGhostStep db u target) u req target.id)
         u target.id,
       ["BEGIN", "SELECT users", "SELECT couples"]
         ++ (if pairCleanupFlag db u target then ["DELETE couples"] else [])
         ++ ["UPDATE users", "UPDATE couples", "COMMIT"]) := by
  simp only [pairCouple, hic, hl]

lemma findUser_linkJoiner (db : DB) (u : Nat) (req : PairReq) (n : Nat) (U : User)
    (hU : findUser db u = some U) :
    findUser (linkJoiner db u req n) u =
      some { U with couple_id := some n,
                    nickname := req.nickname, avatar_id := req.avatar_id } := by
  unfold findUser linkJoiner at *
  rw [show ({ db with
        users := db.users.map (fun v =>
          if v.id == u then
            { v with couple_id := some n,
                     nickname := req.nickname, avatar_id := req.avatar_id }
          else v) } : DB).users = db.users.map (fun v =>
          if v.id == u then
            { v with couple_id := some n,
                     nickname := req.nickname, avatar_id := req.avatar_id }
          else v) from rfl]
  rw [List.find?_map]
  have hfg : ((fun v : User => v.id == u) ∘ (fun v : User =>
      if v.id == u then
        { v with couple_id := some n,
                 nickname := req.nickname, avatar_id := req.avatar_id }
      else v)) = fun v : User => v.id == u := by
    funext w
    simp only [Function.comp_apply]
    cases hw : w.id == u <;> simp [hw]
  rw [hfg, hU]
  have hu : U.id = u := by simpa using List.find?_some hU
  simp [hu]

lemma findUser_finalizeCouple (db : DB) (a b : Nat) (u' : Nat) :
    findUser (finalizeCouple db a b) u' = findUser db u' := rfl

/-- Claim C1: the spec requires `Pair(creator, creator's own code)` to fail
with a conflict error and change nothing.  Evaluating the embedded handler
on a creator redeeming their own invite code shows the call instead
succeeds (HTTP 200) and commits the couple as `full` with the creator
registered as their own partner — the handler never compares
`targetCouple.creator_id` with the caller. -/
theorem selfPair_commits_couple_as_full :
    (pairCouple dbSelf 1 { inviteCode := some "ABC123" }).1 = .ok (some true) ∧
    (pairCouple dbSelf 1 { inviteCode := some "ABC123" }).2.1 =
      ⟨[{ id := 1, couple_id := some 1, onboarded := true }],
       [{ id := 1, invite_code := "ABC123", creator_id := 1,
          partner_id := some 1, status := "full" }]⟩ := by
  decide

/-- Claim C7, counterexample: creator 1 has gender recorded, joiner 2 sends
no explicit gender (the pair request cannot even carry one), the pair call
succeeds — and the joiner's stored gender is still `none` afterwards, not
the complement of the creator's. -/
theorem pair_no_complementary_gender_cex :
    (pairCouple dbGender 2 { inviteCode := some "CODE11" }).1 = .ok (some true) ∧
    (∃ v, findUser dbGender 1 = some v ∧ v.gender = some "male") ∧
    findUser (pairCouple dbGender 2 { inviteCode := some "CODE11" }).2.1 2 =
      some { id := 2, couple_id := some 1, onboarded := true } := by
  decide

/-- Claim C7 (amended): the pair transaction never assigns or derives any
gender — step 4 writes only `couple_id`, `nickname` and `avatar_id`, and
the request body carries no gender field — so every user's stored gender is
exactly what it was before the call, on every path of the handler. -/
theorem pair_preserves_every_gender (db : DB) (u : Nat) (req : PairReq) :
    (pairCouple db u req).2.1.users.map (fun v => (v.id, v.gender))
      = db.users.map (fun v => (v.id, v.gender)) := by
  cases hic : req.inviteCode with
  | none => rw [pairCouple_noCode db u req hic]
  | some rawCode =>
    cases hl : lookupWaiting db rawCode with
    | none => rw [pairCouple_badCode db u req rawCode hic hl]
    | some target =>
      rw [pairCouple_success db u req rawCode target hic hl]
      have h1 : (finalizeCouple
          (linkJoiner (pairGhostStep db u target) u req target.id)
          u target.id).users
          = (pairGhostStep db u target).users.map (fun v =>
              if v.id == u then
                { v with couple_id := some target.id,
                         nickname := req.nickname, avatar_id := req.avatar_id }
              else v) := rfl
      rw [h1, pairGhostStep_users, List.map_map]
      apply List.map_congr_left
      intro v _
      cases hv : v.id == u <;> simp [Function.comp, hv]

/-- Claim C8, counterexample: a pair request with no invite code is
answered with a generic 500 server error, not a validation error, and the
transaction has already been opened (a BEGIN was executed) when the error
is produced. -/
theorem pair_missing_code_opens_transaction_cex :
    (pairCouple dbSelf 1 { inviteCode := none }).1 =
      .err 500 "Failed to join partner." ∧
    "BEGIN" ∈ (pairCouple dbSelf 1 { inviteCode := none }).2.2 := by
  decide

/-- Claim C8 (amended): for every pair request missing the invite code the
handler opens the transaction and runs the users lookup, then the attempt
to normalise the absent code fails; the transaction is rolled back, the
database is unchanged, and the caller receives a generic 500 error. -/
theorem pair_missing_code_rolls_back (db : DB) (u : Nat) (req : PairReq)
    (h : req.inviteCode = none) :
    (pairCouple db u req).1 = .err 500 "Failed to join partner." ∧
    (pairCouple db u req).2.1 = db ∧
    (pairCouple db u req).2.2 = ["BEGIN", "SELECT users", "ROLLBACK"] := by
  rw [pairCouple_noCode db u req h]
  exact ⟨rfl, rfl, rfl⟩

/-- Claim C8, witness: the amended statement applied to a concrete request
with no invite code. -/
theorem pair_missing_code_rolls_back_witness :
    (pairCouple dbSelf 1 { inviteCode := none }).2.1 = dbSelf ∧
    (pairCouple dbSelf 1 { inviteCode := none }).2.2 =
      ["BEGIN", "SELECT users", "ROLLBACK"] :=
  ⟨(pair_missing_code_rolls_back dbSelf 1 { inviteCode := none } rfl).2.1,
   (pair_missing_code_rolls_back dbSelf 1 { inviteCode := none } rfl).2.2⟩

/-- Claim C9: a successful pair call overwrites the joiner's nickname and
avatar with exactly the request-body values — the joiner's row becomes the
old row with `couple_id`, `nickname` and `avatar_id` replaced — so a joiner
who omits either field has it set to null (`none`) afterwards. -/
theorem pair_overwrites_joiner_profile (db : DB) (u : Nat) (req : PairReq)
    (rawCode : String) (target : Couple) (U : User)
    (hU : findUser db u = some U)
    (hic : req.inviteCode = some rawCode)
    (hl : lookupWaiting db rawCode = some target) :
    (pairCouple db u req).1 = .ok (some U.onboarded) ∧
    findUser (pairCouple db u req).2.1 u =
      some { U with couple_id := some target.id,
                    nickname := req.nickname, avatar_id := req.avatar_id } := by
  rw [pairCouple_success db u req rawCode target hic hl]
  refine ⟨by rw [show ((ApiResult.ok ((findUser db u).map (fun v => v.onboarded)),
    finalizeCouple (linkJoiner (pairGhostStep db u target) u req target.id)
      u target.id,
    ["BEGIN", "SELECT users", "SELECT couples"]
      ++ (if pairCleanupFlag db u target then ["DELETE couples"] else [])
      ++ ["UPDATE users", "UPDATE couples", "COMMIT"]) :
      ApiResult (Option Bool) × DB × List String).1
    = .ok ((findUser db u).map (fun v => v.onboarded)) from rfl, hU]; rfl, ?_⟩
  show findUser (finalizeCouple
    (linkJoiner (pairGhostStep db u target) u req target.id) u target.id) u = _
  rw [findUser_finalizeCouple]
  have h1 : findUser (pairGhostStep db u target) u = some U := by
    rw [findUser_pairGhostStep]; exact hU
  exact findUser_linkJoiner _ u req target.id U h1

/-- Claim C9, witness: an already-onboarded joiner with a stored nickname
and avatar pairs while omitting both fields from the request; afterwards
both fields are null. -/
theorem pair_overwrites_joiner_profile_witness :
    findUser (pairCouple dbGender 2 { inviteCode := some "CODE11" }).2.1 2 =
      some { id := 2, nickname := none, avatar_id := none,
             couple_id := some 1, onboarded := true } :=
  (pair_overwrites_joiner_profile dbGender 2 { inviteCode := some "CODE11" }
    "CODE11" { id := 1, invite_code := "CODE11", creator_id := 1 }
    { id := 2, nickname := some "oldnick", avatar_id := some "oldavatar",
      onboarded := true }
    (by decide) rfl (by decide)).2

/-- Claim C10: for every login call the stored table is left unchanged, and
any successfully returned user object carries no credential hash — the
handler deletes `password_hash` before building the response. -/
theorem login_strips_password_hash (compare : String → Option String → Bool)
    (tokenFor : Nat → String) (db : DB) (email password : String) :
    (login compare tokenFor db email password).2 = db ∧
    ∀ v tok, (login compare tokenFor db email password).1 = .ok (v, tok) →
      v.password_hash = none := by
  unfold login
  cases h : db.users.find? (fun v => v.email == email) with
  | none =>
    exact ⟨rfl, fun v tok hv => absurd hv (by simp)⟩
  | some user =>
    cases hc : compare password user.password_hash with
    | false =>
      refine ⟨by simp [hc], ?_⟩
      intro v tok hv
      simp [hc] at hv
    | true =>
      refine ⟨by simp [hc], ?_⟩
      intro v tok hv
      simp [hc] at hv
      obtain ⟨h1, h2⟩ := hv
      rw [← h1]

/-- Claim C10, witness: a concrete successful login whose returned user
object has no credential hash, applied through the general theorem. -/
theorem login_strips_password_hash_witness :
    (login cmpModel tokModel dbLogin "amy@example.com" "pw1234").2 = dbLogin ∧
    ({ id := 1, email := "amy@example.com", password_hash := none } : User).password_hash
      = none :=
  ⟨(login_strips_password_hash cmpModel tokModel dbLogin
      "amy@example.com" "pw1234").1,
   (login_strips_password_hash cmpModel tokModel dbLogin
      "amy@example.com" "pw1234").2
     { id := 1, email := "amy@example.com", password_hash := none } "token"
     (by decide)⟩

lemma unlinkCouple_paired (db : DB) (u : Nat) (cid : Nat)
    (h : (findUser db u).bind (fun v => v.couple_id) = some cid)
    (h0 : (cid == 0) = false) :
    unlinkCouple db u = (.ok (), unlinkCommit db cid) := by
  unfold unlinkCouple
  rw [h]
  show (if (cid == 0) = true then (ApiResult.err 400 "Not in a relationship.", db)
        else (ApiResult.ok (), unlinkCommit db cid))
      = (ApiResult.ok (), unlinkCommit db cid)
  rw [if_neg]
  rw [h0]
  exact Bool.false_ne_true

/-- Claim C5: a caller with no couple gets the not-paired error and no
state change; otherwise every user row referencing the caller's couple has
its `couple_id` cleared (creator and partner alike), the couple row is
deleted, and every user keeps their nickname and avatar. -/
theorem unlink_severs_both_and_deletes (db : DB) (u : Nat) (U : User)
    (hU : findUser db u = some U) :
    (U.couple_id = none →
       unlinkCouple db u = (.err 400 "Not in a relationship.", db)) ∧
    (∀ cid, U.couple_id = some cid → cid ≠ 0 →
      (∀ v ∈ db.users, v.couple_id = some cid →
         { v with couple_id := none } ∈ (unlinkCouple db u).2.users) ∧
      (∀ v ∈ (unlinkCouple db u).2.users, v.couple_id ≠ some cid) ∧
      (∀ c ∈ (unlinkCouple db u).2.couples, c.id ≠ cid) ∧
      (∀ v ∈ db.users, ∃ v', v' ∈ (unlinkCouple db u).2.users ∧
         v'.id = v.id ∧ v'.nickname = v.nickname ∧
         v'.avatar_id = v.avatar_id)) := by
  constructor
  · intro h0
    have hb : (findUser db u).bind (fun v => v.couple_id) = none := by
      rw [hU]; exact h0
    unfold unlinkCouple
    rw [hb]
  · intro cid hcid hne
    have hb : (findUser db u).bind (fun v => v.couple_id) = some cid := by
      rw [hU]; exact hcid
    have h0 : (cid == 0) = false := by simpa using hne
    rw [unlinkCouple_paired db u cid hb h0]
    have husers : (unlinkCommit db cid).users
        = db.users.map (fun v =>
            if v.couple_id == some cid then { v with couple_id := none }
            else v) := rfl
    have hcouples : (unlinkCommit db cid).couples
        = db.couples.filter (fun c => !(c.id == cid)) := rfl
    refine ⟨?_, ?_, ?_, ?_⟩
    · intro v hv hvc
      show _ ∈ (unlinkCommit db cid).users
      rw [husers]
      exact List.mem_map.mpr ⟨v, hv, by simp [hvc]⟩
    · intro v hv
      rw [show ((ApiResult.ok (), unlinkCommit db cid) :
          ApiResult Unit × DB).2.users = (unlinkCommit db cid).users from rfl,
        husers] at hv
      obtain ⟨w, hw, hfw⟩ := List.mem_map.mp hv
      by_cases hwc : (w.couple_id == some cid) = true
      · rw [← hfw, if_pos hwc]; simp
      · rw [← hfw, if_neg hwc]; simpa using hwc
    · intro c hc
      rw [show ((ApiResult.ok (), unlinkCommit db cid) :
          ApiResult Unit × DB).2.couples = (unlinkCommit db cid).couples from rfl,
        hcouples] at hc
      have := (List.mem_filter.mp hc).2
      simpa using this
    · intro v hv
      refine ⟨if v.couple_id == some cid then { v with couple_id := none }
              else v, ?_, ?_⟩
      · show _ ∈ (unlinkCommit db cid).users
        rw [husers]
        exact List.mem_map.mpr ⟨v, hv, rfl⟩
      · by_cases hvc : (v.couple_id == some cid) = true
        · rw [if_pos hvc]; exact ⟨rfl, rfl, rfl⟩
        · rw [if_neg hvc]; exact ⟨rfl, rfl, rfl⟩

/-- Claim C5, witness: unlinking user 1 of the paired couple `dbPaired`
leaves no user row referencing couple 1 and deletes the couple, while
nicknames and avatars survive. -/
theorem unlink_severs_both_and_deletes_witness :
    (∀ v ∈ (unlinkCouple dbPaired 1).2.users, v.couple_id ≠ some 1) ∧
    (∀ c ∈ (unlinkCouple dbPaired 1).2.couples, c.id ≠ 1) ∧
    (∀ v ∈ dbPaired.users, ∃ v', v' ∈ (unlinkCouple dbPaired 1).2.users ∧
       v'.id = v.id ∧ v'.nickname = v.nickname ∧
       v'.avatar_id = v.avatar_id) := by
  have h := (unlink_severs_both_and_deletes dbPaired 1
    { id := 1, couple_id := some 1, nickname := some "a",
      avatar_id := some "av1" }
    (by decide)).2 1 rfl (by decide)
  exact ⟨h.2.1, h.2.2.1, h.2.2.2⟩

/-- Claim C2: a user who created a still-waiting couple A and successfully
pairs into a distinct waiting couple B created by someone else ends with
`couple_id = B.id`, and no couple row with A's id survives the call. -/
theorem pair_deletes_ghost_couple (db : DB) (u : Nat) (req : PairReq)
    (rawCode : String) (U : User) (A B : Couple)
    (hnodup : (db.couples.map (fun c => c.id)).Nodup)
    (hU : findUser db u = some U)
    (hUC : U.couple_id = some A.id)
    (hA0 : A.id ≠ 0)
    (hAmem : A ∈ db.couples)
    (hAcr : A.creator_id = u)
    (hAst : A.status = "waiting")
    (hic : req.inviteCode = some rawCode)
    (hl : lookupWaiting db rawCode = some B)
    (hBA : B.id ≠ A.id)
    (hBcr : B.creator_id ≠ u) :
    (pairCouple db u req).1 = .ok (some U.onboarded) ∧
    (∀ c ∈ (pairCouple db u req).2.1.couples, c.id ≠ A.id) ∧
    findUser (pairCouple db u req).2.1 u =
      some { U with couple_id := some B.id,
                    nickname := req.nickname, avatar_id := req.avatar_id } := by
  have hbind : (findUser db u).bind (fun v => v.couple_id) = some A.id := by
    rw [hU]; exact hUC
  have hflag : pairCleanupFlag db u B = true := by
    unfold pairCleanupFlag
    rw [hbind]
    simp only [Bool.and_eq_true, bne_iff_ne, ne_eq]
    exact ⟨hA0, fun heq => hBA heq.symm⟩
  have hghost : pairGhostStep db u B = ghostDelete db u A.id := by
    unfold pairGhostStep
    rw [if_pos hflag, hbind]
    rfl
  rw [pairCouple_success db u req rawCode B hic hl]
  refine ⟨?_, ?_, ?_⟩
  · show ApiResult.ok ((findUser db u).map (fun v => v.onboarded)) = _
    rw [hU]
    rfl
  · intro c hc
    have hcs : (finalizeCouple
        (linkJoiner (pairGhostStep db u B) u req B.id) u B.id).couples
        = (pairGhostStep db u B).couples.map (fun c =>
            if c.id == B.id then
              { c with partner_id := some u, status := "full" }
            else c) := rfl
    rw [show ((ApiResult.ok ((findUser db u).map (fun v => v.onboarded)),
        finalizeCouple (linkJoiner (pairGhostStep db u B) u req B.id) u B.id,
        ["BEGIN", "SELECT users", "SELECT couples"]
          ++ (if pairCleanupFlag db u B then ["DELETE couples"] else [])
          ++ ["UPDATE users", "UPDATE couples", "COMMIT"]) :
        ApiResult (Option Bool) × DB × List String).2.1.couples
        = (finalizeCouple (linkJoiner (pairGhostStep db u B) u req B.id)
            u B.id).couples from rfl, hcs, hghost] at hc
    obtain ⟨c', hc', hfc⟩ := List.mem_map.mp hc
    have hcid : c.id = c'.id := by
      rw [← hfc]
      cases h' : c'.id == B.id <;> simp [h']
    intro hAeq
    rw [hcid] at hAeq
    have hmem' : c' ∈ db.couples := (List.mem_filter.mp hc').1
    have hkeep := (List.mem_filter.mp hc').2
    have hceq : c' = A :=
      List.inj_on_of_nodup_map hnodup hmem' hAmem hAeq
    rw [hceq] at hkeep
    simp [hAcr, hAst] at hkeep
  · rw [show ((ApiResult.ok ((findUser db u).map (fun v => v.onboarded)),
        finalizeCouple (linkJoiner (pairGhostStep db u B) u req B.id) u B.id,
        ["BEGIN", "SELECT users", "SELECT couples"]
          ++ (if pairCleanupFlag db u B then ["DELETE couples"] else [])
          ++ ["UPDATE users", "UPDATE couples", "COMMIT"]) :
        ApiResult (Option Bool) × DB × List String).2.1
        = finalizeCouple (linkJoiner (pairGhostStep db u B) u req B.id)
            u B.id from rfl, findUser_finalizeCouple]
    have h1 : findUser (pairGhostStep db u B) u = some U := by
      rw [findUser_pairGhostStep]; exact hU
    exact findUser_linkJoiner _ u req B.id U h1

/-- Claim C2, witness: in `dbGhost`, user 2 (creator of waiting couple 1)
pairs into couple 2 created by user 3; couple 1 is gone afterwards and user
2 references couple 2. -/
theorem pair_deletes_ghost_couple_witness :
    (pairCouple dbGhost 2 { inviteCode := some "BBBBBB" }).1 = .ok (some true) ∧
    (∀ c ∈ (pairCouple dbGhost 2 { inviteCode := some "BBBBBB" }).2.1.couples,
       c.id ≠ 1) ∧
    findUser (pairCouple dbGhost 2 { inviteCode := some "BBBBBB" }).2.1 2 =
      some { id := 2, couple_id := some 2, onboarded := true } :=
  pair_deletes_ghost_couple dbGhost 2 { inviteCode := some "BBBBBB" } "BBBBBB"
    { id := 2, couple_id := some 1, onboarded := true }
    { id := 1, invite_code := "AAAAAA", creator_id := 2 }
    { id := 2, invite_code := "BBBBBB", creator_id := 3 }
    (by decide) (by decide) rfl (by decide) (by decide) rfl rfl rfl
    (by decide) (by decide) (by decide)

lemma target_mem_pairGhostStep (db : DB) (u : Nat) (target : Couple)
    (hmem : target ∈ db.couples) :
    target ∈ (pairGhostStep db u target).couples := by
  unfold pairGhostStep
  split
  · rename_i hfl
    cases hb : (findUser db u).bind (fun v => v.couple_id) with
    | none =>
      unfold pairCleanupFlag at hfl
      rw [hb] at hfl
      cases hfl
    | some old =>
      unfold pairCleanupFlag at hfl
      rw [hb] at hfl
      simp only [Bool.and_eq_true, bne_iff_ne, ne_eq] at hfl
      show target ∈ db.couples.filter (fun c =>
        !(c.id == (some old).getD 0 && c.creator_id == u
            && c.status == "waiting"))
      rw [List.mem_filter]
      refine ⟨hmem, ?_⟩
      have hne : target.id ≠ old := fun h => hfl.2 h.symm
      simp [hne]
  · exact hmem

/-- Claim C3 (amended): every failing pair call leaves the database exactly
as it was (full rollback); every successful pair call commits the target
couple as `full` with the joiner as partner and points the joiner's
`couple_id` at it, while every other user row — the creator's included — is
carried over unchanged (so the creator references the couple afterwards
exactly when they already did before the call). -/
theorem pair_rolls_back_or_links_joiner (db : DB) (u : Nat) (req : PairReq) :
    (∀ s m, (pairCouple db u req).1 = .err s m → (pairCouple db u req).2.1 = db) ∧
    (∀ rawCode target, req.inviteCode = some rawCode →
       lookupWaiting db rawCode = some target →
       (pairCouple db u req).1 = .ok ((findUser db u).map (fun v => v.onboarded)) ∧
       (∃ c ∈ (pairCouple db u req).2.1.couples,
          c.id = target.id ∧ c.status = "full" ∧ c.partner_id = some u) ∧
       (∀ v ∈ (pairCouple db u req).2.1.users, v.id = u →
          v.couple_id = some target.id) ∧
       (∀ v ∈ db.users, v.id ≠ u → v ∈ (pairCouple db u req).2.1.users)) := by
  constructor
  · intro s m herr
    cases hic : req.inviteCode with
    | none => rw [pairCouple_noCode db u req hic]
    | some rawCode =>
      cases hl : lookupWaiting db rawCode with
      | none => rw [pairCouple_badCode db u req rawCode hic hl]
      | some target =>
        rw [pairCouple_success db u req rawCode target hic hl] at herr
        exact absurd herr (by simp)
  · intro rawCode target hic hl
    rw [pairCouple_success db u req rawCode target hic hl]
    have husers : (finalizeCouple
        (linkJoiner (pairGhostStep db u target) u req target.id)
        u target.id).users
        = db.users.map (fun v =>
            if v.id == u then
              { v with couple_id := some target.id,
                       nickname := req.nickname, avatar_id := req.avatar_id }
            else v) := by
      show (linkJoiner (pairGhostStep db u target) u req target.id).users = _
      show (pairGhostStep db u target).users.map _ = _
      rw [pairGhostStep_users]
    refine ⟨rfl, ?_, ?_, ?_⟩
    · have hmemT := (lookupWaiting_mem hl).1
      have hmemG := target_mem_pairGhostStep db u target hmemT
      refine ⟨{ target with partner_id := some u, status := "full" },
        ?_, rfl, rfl, rfl⟩
      show _ ∈ (pairGhostStep db u target).couples.map (fun c =>
        if c.id == target.id then
          { c with partner_id := some u, status := "full" }
        else c)
      exact List.mem_map.mpr ⟨target, hmemG, by simp⟩
    · intro v hv hvid
      rw [show ((ApiResult.ok ((findUser db u).map (fun v => v.onboarded)),
          finalizeCouple (linkJoiner (pairGhostStep db u target) u req target.id)
            u target.id,
          ["BEGIN", "SELECT users", "SELECT couples"]
            ++ (if pairCleanupFlag db u target then ["DELETE couples"] else [])
            ++ ["UPDATE users", "UPDATE couples", "COMMIT"]) :
          ApiResult (Option Bool) × DB × List String).2.1.users
          = (finalizeCouple
              (linkJoiner (pairGhostStep db u target) u req target.id)
              u target.id).users from rfl, husers] at hv
      obtain ⟨w, hw, hfw⟩ := List.mem_map.mp hv
      by_cases hwid : (w.id == u) = true
      · rw [← hfw, if_pos hwid]
      · exfalso
        have hvw : v = w := by rw [← hfw, if_neg hwid]
        apply hwid
        rw [beq_iff_eq, ← hvw]
        exact hvid
    · intro v hv hne
      rw [show ((ApiResult.ok ((findUser db u).map (fun v => v.onboarded)),
          finalizeCouple (linkJoiner (pairGhostStep db u target) u req target.id)
            u target.id,
          ["BEGIN", "SELECT users", "SELECT couples"]
            ++ (if pairCleanupFlag db u target then ["DELETE couples"] else [])
            ++ ["UPDATE users", "UPDATE couples", "COMMIT"]) :
          ApiResult (Option Bool) × DB × List String).2.1.users
          = (finalizeCouple
              (linkJoiner (pairGhostStep db u target) u req target.id)
              u target.id).users from rfl, husers]
      refine List.mem_map.mpr ⟨v, hv, ?_⟩
      rw [if_neg]
      rw [beq_iff_eq]
      exact hne

/-- Claim C3, counterexample: in `dbDouble` — reached from an empty couples
table by user 1 onboarding twice — user 2 pairs successfully into couple 1,
which commits as `full` with partner 2, yet creator 1's `couple_id` still
references couple 2: both users' `couple_id` do not point at the `full`
couple, violating the claimed referential symmetry after a successful
Pair. -/
theorem pair_referential_symmetry_cex :
    (pairCouple dbDouble 2 { inviteCode := some "AAAAAA" }).1 = .ok (some false) ∧
    (∃ c ∈ (pairCouple dbDouble 2 { inviteCode := some "AAAAAA" }).2.1.couples,
       c.id = 1 ∧ c.status = "full" ∧ c.partner_id = some 2 ∧ c.creator_id = 1) ∧
    (∃ v, findUser (pairCouple dbDouble 2 { inviteCode := some "AAAAAA" }).2.1 1
        = some v ∧ v.couple_id = some 2) := by
  decide

/-- Claim C3, witness: the amended statement applied to a concrete
successful pair in `dbGender`. -/
theorem pair_rolls_back_or_links_joiner_witness :
    (∀ v ∈ (pairCouple dbGender 2 { inviteCode := some "CODE11" }).2.1.users,
       v.id = 2 → v.couple_id = some 1) ∧
    (∃ c ∈ (pairCouple dbGender 2 { inviteCode := some "CODE11" }).2.1.couples,
       c.id = 1 ∧ c.status = "full" ∧ c.partner_id = some 2) := by
  have h := (pair_rolls_back_or_links_joiner dbGender 2
    { inviteCode := some "CODE11" }).2 "CODE11"
    { id := 1, invite_code := "CODE11", creator_id := 1 } rfl (by decide)
  exact ⟨h.2.2.1, h.2.1⟩

/-- Claim C4: the invite preview distinguishes its two failure modes — no
couple carries the queried (normalised) code: 404 "not found"; couples
carrying the code exist (their creators existing, as the foreign key
guarantees) but none is `waiting` — in particular a `full` one: 400
"already used". -/
theorem preview_distinguishes_failures (db : DB) (code : String) :
    ((∀ c ∈ db.couples,
        trimStr (upperStr c.invite_code) ≠ upperStr (trimStr code)) →
      getInvitePreview db code =
        .err 404 "Invite not found. Check if the creator still exists or if the code is correct.") ∧
    ((∃ c ∈ db.couples,
        trimStr (upperStr c.invite_code) = upperStr (trimStr code)) →
     (∀ c ∈ db.couples,
        trimStr (upperStr c.invite_code) = upperStr (trimStr code) →
          c.status ≠ "waiting") →
     (∀ c ∈ db.couples, ∃ v ∈ db.users, v.id = c.creator_id) →
      getInvitePreview db code =
        .err 400 "This invite has already been used by someone else.") := by
  constructor
  · intro hnone
    have hrows : previewRows db code = [] := by
      unfold previewRows
      rw [List.filterMap_eq_nil_iff]
      intro c hc
      rw [if_neg]
      simp only [beq_iff_eq]
      exact hnone c hc
    unfold getInvitePreview
    rw [hrows]
    rfl
  · intro hex hall hFK
    obtain ⟨c, hc, hcode⟩ := hex
    obtain ⟨v, hv, hvid⟩ := hFK c hc
    have hfind : (findUser db c.creator_id).isSome = true := by
      unfold findUser
      rw [List.find?_isSome]
      exact ⟨v, hv, by simp [hvid]⟩
    obtain ⟨u0, hu0⟩ := Option.isSome_iff_exists.mp hfind
    have hmemrow : (u0, c) ∈ previewRows db code := by
      unfold previewRows
      rw [List.mem_filterMap]
      refine ⟨c, hc, ?_⟩
      rw [if_pos (by simp only [beq_iff_eq]; exact hcode), hu0]
      rfl
    unfold getInvitePreview
    cases hh : (previewRows db code).head? with
    | none =>
      rw [List.head?_eq_none_iff] at hh
      rw [hh] at hmemrow
      cases hmemrow
    | some pr =>
      have hpr := head?_mem hh
      unfold previewRows at hpr
      rw [List.mem_filterMap] at hpr
      obtain ⟨c', hc', hfc'⟩ := hpr
      by_cases hcond :
          (trimStr (upperStr c'.invite_code) == upperStr (trimStr code)) = true
      · rw [if_pos hcond] at hfc'
        cases hfu : findUser db c'.creator_id with
        | none => rw [hfu] at hfc'; cases hfc'
        | some u' =>
          rw [hfu] at hfc'
          have hpr2 : pr.2 = c' := by
            have : (u', c') = pr := by injection hfc'
            rw [← this]
          have hstat : pr.2.status ≠ "waiting" := by
            rw [hpr2]
            exact hall c' hc' (by simpa using hcond)
          obtain ⟨pu, pc⟩ := pr
          show (if (pc.status != "waiting") = true then
              ApiResult.err 400 "This invite has already been used by someone else."
            else ApiResult.ok
              (⟨pu.nickname, pu.avatar_id, pc.rel_status⟩ : PreviewInfo))
            = .err 400 "This invite has already been used by someone else."
          rw [if_pos]
          simpa using hstat
      · rw [if_neg hcond] at hfc'
        cases hfc'

/-- Claim C4, witness: previewing the code of the `full` couple in `dbFull`
(with stray case and whitespace in the query) answers the distinct
"already used" error. -/
theorem preview_distinguishes_failures_witness :
    getInvitePreview dbFull " fullcd" =
      .err 400 "This invite has already been used by someone else." :=
  (preview_distinguishes_failures dbFull " fullcd").2
    (by decide) (by decide) (by decide)

lemma le_foldr_max (l : List Nat) (x : Nat) (hx : x ∈ l) :
    x ≤ l.foldr max 0 := by
  induction l with
  | nil => cases hx
  | cons a t ih =>
    cases hx with
    | head => exact Nat.le_max_left _ _
    | tail _ h => exact Nat.le_trans (ih h) (Nat.le_max_right _ _)

lemma freshCoupleId_not_mem (db : DB) :
    freshCoupleId db ∉ db.couples.map (fun c => c.id) := by
  intro hmem
  have h := le_foldr_max (db.couples.map (fun c => c.id))
    (freshCoupleId db) hmem
  unfold freshCoupleId at h
  omega

lemma onboardCreator_shape (db : DB) (u : Nat) (req : OnboardReq)
    (code : String) :
    ((onboardCreator db u req code).2 = db ∧
      ∃ s m, (onboardCreator db u req code).1 = .err s m) ∨
    (onboardCreator db u req code =
        (.ok (code, freshCoupleId (onboardProfileUpdate db u req)),
         onboardCommit db u req code) ∧
      inviteCodeConflict (onboardProfileUpdate db u req) code = false) := by
  unfold onboardCreator
  split
  · exact Or.inl ⟨rfl, 401, _, rfl⟩
  split
  · exact Or.inl ⟨rfl, 400, _, rfl⟩
  · rename_i hconf
    exact Or.inr ⟨rfl, by simpa using hconf⟩

lemma waitingCodesUnique_onboardStep (db : DB) (u : Nat) (req : OnboardReq)
    (code : String) (h : waitingCodesUnique db) :
    waitingCodesUnique (onboardCreator db u req code).2 := by
  rcases onboardCreator_shape db u req code with ⟨hdb, _⟩ | ⟨hok, hconf⟩
  · rw [hdb]; exact h
  · rw [hok]
    show waitingCodesUnique (onboardCommit db u req code)
    unfold waitingCodesUnique at h ⊢
    have hcc : (onboardCommit db u req code).couples
        = db.couples ++
          [{ id := freshCoupleId (onboardProfileUpdate db u req),
             invite_code := code, creator_id := u,
             rel_status := req.rel_status, status := "waiting" }] := rfl
    rw [hcc, List.pairwise_append]
    refine ⟨h, List.pairwise_singleton _ _, ?_⟩
    intro a ha b hb
    rw [List.mem_singleton] at hb
    subst hb
    intro hwa _
    unfold inviteCodeConflict at hconf
    rw [List.any_eq_false] at hconf
    have hna := hconf a ha
    simp only [Bool.and_eq_true, beq_iff_eq, not_and] at hna
    exact hna hwa

lemma waitingCodesUnique_pairStep (db : DB) (u : Nat) (req : PairReq)
    (h : waitingCodesUnique db) :
    waitingCodesUnique (pairCouple db u req).2.1 := by
  cases hic : req.inviteCode with
  | none => rw [pairCouple_noCode db u req hic]; exact h
  | some rawCode =>
    cases hl : lookupWaiting db rawCode with
    | none => rw [pairCouple_badCode db u req rawCode hic hl]; exact h
    | some target =>
      rw [pairCouple_success db u req rawCode target hic hl]
      have hG : (pairGhostStep db u target).couples.Pairwise codeClash := by
        unfold pairGhostStep
        split
        · exact List.Pairwise.sublist (List.filter_sublist _) h
        · exact h
      show (finalizeCouple
        (linkJoiner (pairGhostStep db u target) u req target.id)
        u target.id).couples.Pairwise codeClash
      have hcc : (finalizeCouple
          (linkJoiner (pairGhostStep db u target) u req target.id)
          u target.id).couples
          = (pairGhostStep db u target).couples.map (fun c =>
              if c.id == target.id then
                { c with partner_id := some u, status := "full" }
              else c) := rfl
      rw [hcc, List.pairwise_map]
      refine hG.imp ?_
      intro a b hab hwa hwb
      by_cases ha : (a.id == target.id) = true
      · rw [if_pos ha] at hwa
        exact absurd (show ("full" : String) = "waiting" from hwa) (by decide)
      · rw [if_neg ha] at hwa ⊢
        by_cases hbb : (b.id == target.id) = true
        · rw [if_pos hbb] at hwb
          exact absurd (show ("full" : String) = "waiting" from hwb) (by decide)
        · rw [if_neg hbb] at hwb ⊢
          exact hab hwa hwb

lemma waitingCodesUnique_unlinkStep (db : DB) (u : Nat)
    (h : waitingCodesUnique db) :
    waitingCodesUnique (unlinkCouple db u).2 := by
  unfold unlinkCouple
  cases hb : (findUser db u).bind (fun v => v.couple_id) with
  | none => exact h
  | some cid =>
    show waitingCodesUnique (if (cid == 0) = true
      then (ApiResult.err 400 "Not in a relationship.", db)
      else (ApiResult.ok (), unlinkCommit db cid)).2
    split
    · exact h
    · show waitingCodesUnique (unlinkCommit db cid)
      unfold waitingCodesUnique at h ⊢
      rw [show (unlinkCommit db cid).couples
          = db.couples.filter (fun c => !(c.id == cid)) from rfl]
      exact List.Pairwise.sublist (List.filter_sublist _) h

lemma reachable_waitingCodesUnique {db : DB} (h : Reachable db) :
    waitingCodesUnique db := by
  induction h with
  | init users => exact List.Pairwise.nil
  | step hr hs ih =>
    cases hs with
    | onboard u req code => exact waitingCodesUnique_onboardStep _ u req code ih
    | pair u req => exact waitingCodesUnique_pairStep _ u req ih
    | unlink u => exact waitingCodesUnique_unlinkStep _ u ih

/-- Claim C6: in every state reachable by CreateInvite, Pair and Unlink
calls, no two `waiting` couples share a case-normalised invite code; and
CreateInvite either fails leaving the state untouched, or commits only when
its generated code collides with no waiting couple, attaching the caller to
a brand-new couple row (its id belongs to no pre-existing couple) — never
to an existing couple. -/
theorem waiting_codes_unique_invariant (db : DB) (h : Reachable db) :
    waitingCodesUnique db ∧
    ∀ u req code,
      ((∃ s m, (onboardCreator db u req code).1 = .err s m) →
         (onboardCreator db u req code).2 = db) ∧
      (∀ ic cid, (onboardCreator db u req code).1 = .ok (ic, cid) →
         inviteCodeConflict db code = false ∧
         cid ∉ db.couples.map (fun c => c.id) ∧
         ∀ v ∈ (onboardCreator db u req code).2.users, v.id = u →
           v.couple_id = some cid) := by
  refine ⟨reachable_waitingCodesUnique h, ?_⟩
  intro u req code
  rcases onboardCreator_shape db u req code with ⟨hdb, s, m, hs⟩ | ⟨hok, hconf⟩
  · refine ⟨fun _ => hdb, ?_⟩
    intro ic cid hcid
    rw [hs] at hcid
    cases hcid
  · constructor
    · rintro ⟨s, m, hs⟩
      rw [hok] at hs
      cases hs
    · intro ic cid hcid
      rw [hok] at hcid
      have hinj : code = ic ∧
          freshCoupleId (onboardProfileUpdate db u req) = cid := by
        have := hcid
        simp only [ApiResult.ok.injEq, Prod.mk.injEq] at this
        exact this
      refine ⟨hconf, ?_, ?_⟩
      · rw [← hinj.2]
        exact freshCoupleId_not_mem db
      · intro v hv hvid
        rw [hok] at hv
        have hcu : (onboardCommit db u req code).users
            = (onboardProfileUpdate db u req).users.map (fun w =>
                if w.id == u
                then { w with couple_id := some (freshCoupleId (onboardProfileUpdate db u req)) }
                else w) := rfl
        rw [show ((ApiResult.ok (code,
              freshCoupleId (onboardProfileUpdate db u req)),
            onboardCommit db u req code) :
            ApiResult (String × Nat) × DB).2.users
            = (onboardCommit db u req code).users from rfl, hcu] at hv
        obtain ⟨w, hw, hfw⟩ := List.mem_map.mp hv
        by_cases hwid : (w.id == u) = true
        · rw [← hfw, if_pos hwid, ← hinj.2]
        · exfalso
          have hvw : v = w := by rw [← hfw, if_neg hwid]
          apply hwid
          rw [beq_iff_eq, ← hvw]
          exact hvid

/-- Claim C6, witness: the invariant holds in the concrete state reached by
one onboarding call from a couple-free state. -/
theorem waiting_codes_unique_invariant_witness :
    waitingCodesUnique (onboardCreator ⟨[{ id := 1 }], []⟩ 1 {} "ABC123").2 :=
  (waiting_codes_unique_invariant
    (onboardCreator ⟨[{ id := 1 }], []⟩ 1 {} "ABC123").2
    (Reachable.step (Reachable.init [{ id := 1 }])
      (Step.onboard ⟨[{ id := 1 }], []⟩ 1 {} "ABC123"))).1

end PairingApp
